import Mathlib

/-! # switcher.c: the mux protocol and the switch-mode controller

A shallow embedding of `src/switcher.c`.  The program talks to the
`AppleGraphicsControl` driver through `IOConnectCallScalarMethod`.  The driver
is an external collaborator, so it is a parameter of every definition: a
`Channel` maps the events recorded so far and the current call to a reply.
Every call the program makes, and every `sleep`, is appended to the trace of
the `World`, which also holds the process-wide handle `switcherConnect`.

Integer types: `uint64_t` is a `Nat` reduced modulo `2 ^ 64` where it is
stored, `int`, `BOOL` and `kern_return_t` are `Int`, `io_connect_t` is a `Nat`.
The diagnostic `printf` lines write to standard output only and are left out.
-/

namespace Switcher

/-! ## Machine integers -/

/-- Reduction of a natural number to an unsigned 64-bit value. -/
def u64 (n : Nat) : Nat := n % 2 ^ 64

/-- Conversion of an `int` to `uint64_t` (reduction modulo `2 ^ 64`). -/
def intToU64 (i : Int) : Nat := (i % 2 ^ 64).toNat

/-- Conversion of a `uint64_t` to a 32-bit `int` (two's-complement wrap). -/
def u64ToInt (n : Nat) : Int :=
  let m : Nat := n % 2 ^ 32
  if m < 2 ^ 31 then (m : Int) else (m : Int) - 2 ^ 32

/-! ## Constants and enumerations -/

/-- The null handle, `IO_OBJECT_NULL`. -/
def IO_OBJECT_NULL : Nat := 0

/-- The success code, `KERN_SUCCESS`. -/
def KERN_SUCCESS : Int := 0

/-- The four intents, `SwitcherMode`. -/
inductive SwitcherMode where
  | modeForceIntegrated
  | modeForceDiscrete
  | modeDynamicSwitching
  | modeToggleGPU
  deriving DecidableEq, Repr

/-- Dispatch selector `kOpen`. -/
def kOpen : Nat := 0
/-- Dispatch selector `kClose`. -/
def kClose : Nat := 1
/-- Dispatch selector `kSetMuxState`. -/
def kSetMuxState : Nat := 2
/-- Dispatch selector `kGetMuxState`. -/
def kGetMuxState : Nat := 3

/-- Enumerator `muxDisableFeature` of `muxState` (set only). -/
def muxDisableFeature : Nat := 0
/-- Enumerator `muxEnableFeature` of `muxState` (set only). -/
def muxEnableFeature : Nat := 1
/-- Enumerator `muxFeatureInfo` of `muxState` (get). -/
def muxFeatureInfo : Nat := 0
/-- Enumerator `muxFeatureInfo2` of `muxState` (get). -/
def muxFeatureInfo2 : Nat := 1
/-- Enumerator `muxForceSwitch` of `muxState`. -/
def muxForceSwitch : Nat := 2
/-- Enumerator `muxPowerGPU` of `muxState`. -/
def muxPowerGPU : Nat := 3
/-- Enumerator `muxGpuSelect` of `muxState`. -/
def muxGpuSelect : Nat := 4
/-- Enumerator `muxSwitchPolicy` of `muxState`. -/
def muxSwitchPolicy : Nat := 5
/-- Enumerator `muxUnknown` of `muxState`. -/
def muxUnknown : Nat := 6
/-- Enumerator `muxGraphicsCard` of `muxState`. -/
def muxGraphicsCard : Nat := 7
/-- Enumerator `muxDebug` of `muxState`. -/
def muxDebug : Nat := 8

/-- The enumeration `muxFeature`, with every enumerator of the source. -/
inductive muxFeature where
  | Policy
  | Auto_PowerDown_GPU
  | Dynamic_Switching
  | GPU_Powerpolling
  | Defer_Policy
  | Synchronous_Launch
  | Backlight_Control
  | Recovery_Timeouts
  | Power_Switch_Debounce
  | Logging
  | Display_Capture_Switch
  | No_GL_HDA_busy_idle_registration
  | muxFeaturesCount
  deriving DecidableEq, Repr

/-- The integer value of each enumerator of `muxFeature`. -/
def muxFeature.val : muxFeature → Nat
  | .Policy => 0
  | .Auto_PowerDown_GPU => 1
  | .Dynamic_Switching => 2
  | .GPU_Powerpolling => 3
  | .Defer_Policy => 4
  | .Synchronous_Launch => 5
  | .Backlight_Control => 8
  | .Recovery_Timeouts => 9
  | .Power_Switch_Debounce => 10
  | .Logging => 16
  | .Display_Capture_Switch => 17
  | .No_GL_HDA_busy_idle_registration => 18
  | .muxFeaturesCount => 19

/-- The C expression `1<<feature`, an `int`: every enumerator is below 31, so
the shift does not overflow. -/
def shl1 (feature : muxFeature) : Int := ((1 <<< feature.val : Nat) : Int)

/-! ## The driver channel and the recorded trace -/

/-- One invocation of `IOConnectCallScalarMethod`: the handle, the selector,
the scalar inputs and the number of scalar outputs the caller has room for
(0 when the output array is `NULL`). -/
structure Call where
  connect : Nat
  selector : Nat
  input : List Nat
  outputCount : Nat
  deriving DecidableEq, Repr

/-- What the program does to the outside world, in order. -/
inductive Event where
  | call (c : Call)
  | sleep (seconds : Nat)
  deriving DecidableEq, Repr

/-- The driver's answer to a call: the `kern_return_t`, and the scalar it
stored in the output array, if it stored one. -/
structure Reply where
  kr : Int
  out : Option Nat
  deriving DecidableEq, Repr

/-- A deterministic driver: the reply to a call, given everything recorded
before it. -/
abbrev Channel := List Event → Call → Reply

/-- The program state: the global `switcherConnect` and the recorded trace. -/
structure World where
  switcherConnect : Nat
  trace : List Event
  deriving DecidableEq, Repr

/-- The library call `IOConnectCallScalarMethod`: the call is recorded and the
channel's reply returned. -/
def IOConnectCallScalarMethod (chan : Channel) (connect selector : Nat)
    (input : List Nat) (outputCnt : Nat) (w : World) : Reply × World :=
  let c : Call := ⟨connect, selector, input, outputCnt⟩
  (chan w.trace c, { w with trace := w.trace ++ [Event.call c] })

/-- The library call `sleep`. -/
def sleep (seconds : Nat) (w : World) : World :=
  { w with trace := w.trace ++ [Event.sleep seconds] }

/-! ## The protocol functions -/

/-- `getMuxState(connect, input, output)`: `output` is the value `*output`
holds on entry; the result is the returned `BOOL` and the value `*output`
holds on return. -/
def getMuxState (chan : Channel) (connect : Nat) (input : Nat) (output : Nat)
    (w : World) : (Int × Nat) × World :=
  let r := IOConnectCallScalarMethod chan connect kGetMuxState [1, u64 input] 1 w
  let output1 := match r.1.out with
    | some v => u64 v
    | none => output
  ((if r.1.kr = KERN_SUCCESS then 1 else 0, output1), r.2)

/-- `setMuxState(connect, state, arg)`. -/
def setMuxState (chan : Channel) (connect : Nat) (state : Nat) (arg : Nat)
    (w : World) : Int × World :=
  let r := IOConnectCallScalarMethod chan connect kSetMuxState
    [1, u64 state, u64 arg] 0 w
  (if r.1.kr = KERN_SUCCESS then 1 else 0, r.2)

/-- `setFeatureInfo(connect, feature, enabled)`. -/
def setFeatureInfo (chan : Channel) (connect : Nat) (feature : muxFeature)
    (enabled : Int) (w : World) : Int × World :=
  setMuxState chan connect
    (if enabled ≠ 0 then muxEnableFeature else muxDisableFeature)
    (intToU64 (shl1 feature)) w

/-- `getFeatureInfo(connect, feature)`. -/
def getFeatureInfo (chan : Channel) (connect : Nat) (feature : muxFeature)
    (w : World) : Int × World :=
  let r := getMuxState chan connect muxFeatureInfo 0 w
  if r.1.1 = 0 then (0, r.2)
  else (u64ToInt (intToU64 (shl1 feature) &&& r.1.2), r.2)

/-- `setSwitchPolicy(connect, dynamic)`; the result of `setMuxState` is
dropped. -/
def setSwitchPolicy (chan : Channel) (connect : Nat) (dynamic : Int)
    (w : World) : World :=
  (setMuxState chan connect muxSwitchPolicy (if dynamic ≠ 0 then 0 else 2) w).2

/-- `setDynamicSwitchingEnabled(connect, enabled)`; the result of
`setMuxState` is dropped. -/
def setDynamicSwitchingEnabled (chan : Channel) (connect : Nat) (enabled : Int)
    (w : World) : World :=
  (setMuxState chan connect muxGpuSelect (if enabled ≠ 0 then 1 else 0) w).2

/-- `forceSwitch(connect)`; the result of `setMuxState` is dropped. -/
def forceSwitch (chan : Channel) (connect : Nat) (w : World) : World :=
  (setMuxState chan connect muxForceSwitch 0 w).2

/-! ## The controller -/

/-- `isUsingIntegrated()`.  The local `output` is not initialised in the
source: `uninit` is the value it happens to hold on entry. -/
def isUsingIntegrated (chan : Channel) (uninit : Nat) (w : World) : Int × World :=
  if w.switcherConnect = IO_OBJECT_NULL then (0, w)
  else
    let r := getMuxState chan w.switcherConnect muxGraphicsCard uninit w
    (if r.1.2 ≠ 0 then 1 else 0, r.2)

/-- `isUsingDynamicSwitching()`, with `uninit` as in `isUsingIntegrated`. -/
def isUsingDynamicSwitching (chan : Channel) (uninit : Nat) (w : World) :
    Int × World :=
  if w.switcherConnect = IO_OBJECT_NULL then (0, w)
  else
    let r := getMuxState chan w.switcherConnect muxGpuSelect uninit w
    (if r.1.2 ≠ 0 then 1 else 0, r.2)

/-- `switcherSetMode(mode)`; `uninit` is passed on to `isUsingIntegrated`. -/
def switcherSetMode (chan : Channel) (uninit : Nat) (mode : SwitcherMode)
    (w : World) : Int × World :=
  if w.switcherConnect = IO_OBJECT_NULL then (0, w)
  else
    match mode with
    | .modeForceIntegrated | .modeForceDiscrete =>
      let w1 := setDynamicSwitchingEnabled chan w.switcherConnect 0 w
      let w2 := (setFeatureInfo chan w1.switcherConnect muxFeature.Policy 0 w1).2
      let w3 := setSwitchPolicy chan w2.switcherConnect 0 w2
      let w4 := sleep 1 w3
      let r := isUsingIntegrated chan uninit w4
      let integrated := r.1
      let w5 := r.2
      if (mode = .modeForceIntegrated ∧ integrated = 0)
          ∨ (mode = .modeForceDiscrete ∧ integrated ≠ 0) then
        (1, forceSwitch chan w5.switcherConnect w5)
      else (1, w5)
    | .modeDynamicSwitching =>
      let w1 := (setFeatureInfo chan w.switcherConnect muxFeature.Policy 1 w).2
      let w2 := setSwitchPolicy chan w1.switcherConnect 1 w1
      let w3 := setDynamicSwitchingEnabled chan w2.switcherConnect 1 w2
      (1, w3)
    | .modeToggleGPU =>
      (1, forceSwitch chan w.switcherConnect w)

/-! ## Vocabulary of the statements -/

/-- The event of a set-state call: selector `kSetMuxState`, three scalar
inputs, no output. -/
def setStateEvent (connect a b c : Nat) : Event :=
  Event.call ⟨connect, kSetMuxState, [a, b, c], 0⟩

/-- The event of a get-state call: selector `kGetMuxState`, two scalar inputs,
one output. -/
def getStateEvent (connect a b : Nat) : Event :=
  Event.call ⟨connect, kGetMuxState, [a, b], 1⟩

/-- Whether an event is a force-switch call: a set-state call with the inputs
`[1, 2, 0]`. -/
def isForceSwitch : Event → Bool
  | .call c => decide (c.selector = kSetMuxState ∧ c.input = [1, 2, 0])
  | .sleep _ => false

/-- How many force-switch calls a trace holds. -/
def forceSwitchCount (t : List Event) : Nat := t.countP isForceSwitch

/-- A world with the handle `h` and nothing recorded yet. -/
def fresh (h : Nat) : World := ⟨h, []⟩

/-- A channel on which every call succeeds and every read returns `v`. -/
def constChannel (v : Nat) : Channel := fun _ _ => ⟨KERN_SUCCESS, some v⟩

/-- A channel that fails the first call it receives (code 5, `KERN_FAILURE`,
nothing stored) and answers every later call with success and the value 1. -/
def failFirstChannel : Channel := fun hist _ =>
  if hist = [] then ⟨5, none⟩ else ⟨KERN_SUCCESS, some 1⟩

/-- A channel that refuses every call made on the null handle (code
`0x10000003`, `MACH_SEND_INVALID_DEST`, nothing stored) and answers every other
call with success and the value 0. -/
def nullRejectingChannel : Channel := fun _ c =>
  if c.connect = IO_OBJECT_NULL then ⟨0x10000003, none⟩ else ⟨KERN_SUCCESS, some 0⟩

/-- The feature mask of the fake driver after one more recorded event: a
set-state call `[1, 1, m]` ORs `m` into the mask, a set-state call `[1, 0, m]`
clears the bits of `m`, anything else leaves it alone. -/
def fakeMaskStep (mask : Nat) (e : Event) : Nat :=
  match e with
  | .call c =>
    if c.selector = kSetMuxState then
      match c.input with
      | [a, k, m] =>
        if a = 1 ∧ k = 1 then (mask ||| m) % 2 ^ 64
        else if a = 1 ∧ k = 0 then mask ^^^ (mask &&& m)
        else mask
      | _ => mask
    else mask
  | .sleep _ => mask

/-- The feature mask of the fake driver after the recorded events, from the
initial mask `m0`. -/
def fakeMask (m0 : Nat) (hist : List Event) : Nat :=
  hist.foldl fakeMaskStep (m0 % 2 ^ 64)

/-- A fake channel that keeps a 64-bit feature mask: every call succeeds, the
writes act on the mask as in `fakeMaskStep`, and a get-state call `[1, 0]`
returns the mask; no other call stores an output. -/
def fakeFeatureChannel (m0 : Nat) : Channel := fun hist c =>
  if c.selector = kGetMuxState ∧ c.input = [1, 0] then
    ⟨KERN_SUCCESS, some (fakeMask m0 hist)⟩
  else ⟨KERN_SUCCESS, none⟩

/-- A stateful mux: every call succeeds, and the active-card read returns 1
while an even number of force-switch calls has been recorded, 0 while the
number is odd (each force-switch moves the display to the other card). -/
def togglingChannel : Channel := fun hist _ =>
  ⟨KERN_SUCCESS, some (if forceSwitchCount hist % 2 = 0 then 1 else 0)⟩

/-! ## Theorems -/

/-- C4: on an open handle and whatever the channel answers,
`switcherSetMode(modeToggleGPU)` returns 1 and records exactly one event, the
set-state call with inputs `[1, 2, 0]` and no output. -/
theorem toggle_issues_single_force_switch (chan : Channel) (uninit h : Nat)
    (hopen : h ≠ IO_OBJECT_NULL) :
    switcherSetMode chan uninit .modeToggleGPU (fresh h)
      = (1, ⟨h, [setStateEvent h 1 2 0]⟩) := by
  simp [switcherSetMode, fresh, hopen, forceSwitch, setMuxState,
    IOConnectCallScalarMethod, setStateEvent, u64, muxForceSwitch]

/-- C4 witness: handle 1 on a channel that always succeeds. -/
theorem toggle_issues_single_force_switch_witness :
    switcherSetMode (constChannel 0) 0 .modeToggleGPU (fresh 1)
      = (1, ⟨1, [setStateEvent 1 1 2 0]⟩) :=
  toggle_issues_single_force_switch (constChannel 0) 0 1 (by decide)

/-- C1 (as stated, refuted): on handle 1 and the channel on which every call
succeeds and every read returns 0, `switcherSetMode(modeForceIntegrated)` ends
its trace with one force-switch call. -/
theorem forceIntegrated_readback_zero_switches :
    switcherSetMode (constChannel 0) 0 .modeForceIntegrated (fresh 1)
        = (1, ⟨1, [setStateEvent 1 1 4 0, setStateEvent 1 1 0 1,
            setStateEvent 1 1 5 2, Event.sleep 1, getStateEvent 1 1 7,
            setStateEvent 1 1 2 0]⟩)
      ∧ forceSwitchCount
          (switcherSetMode (constChannel 0) 0 .modeForceIntegrated (fresh 1)).2.trace
        = 1 := by
  constructor <;> rfl

/-- C1 (amended): on an open handle, when the active-card read (get-state key
7), issued after the three writes and the settle delay, succeeds with a
non-zero 64-bit value, which is what `isUsingIntegrated` takes as integrated,
`switcherSetMode(modeForceIntegrated)` returns 1, records the three
policy/feature writes, the settle delay and the read, and records no
force-switch call.  Only the reply to that one read is assumed; the channel is
free everywhere else. -/
theorem forceIntegrated_no_switch_when_readback_nonzero (chan : Channel)
    (uninit h v : Nat) (hopen : h ≠ IO_OBJECT_NULL) (hv : v ≠ 0)
    (hlt : v < 2 ^ 64)
    (hread : chan [setStateEvent h 1 4 0, setStateEvent h 1 0 1,
        setStateEvent h 1 5 2, Event.sleep 1] ⟨h, kGetMuxState, [1, 7], 1⟩
      = ⟨KERN_SUCCESS, some v⟩) :
    switcherSetMode chan uninit .modeForceIntegrated (fresh h)
        = (1, ⟨h, [setStateEvent h 1 4 0, setStateEvent h 1 0 1,
            setStateEvent h 1 5 2, Event.sleep 1, getStateEvent h 1 7]⟩)
      ∧ forceSwitchCount
          (switcherSetMode chan uninit .modeForceIntegrated (fresh h)).2.trace
        = 0 := by
  simp only [setStateEvent] at hread
  have hrun : switcherSetMode chan uninit .modeForceIntegrated (fresh h)
      = (1, ⟨h, [setStateEvent h 1 4 0, setStateEvent h 1 0 1,
          setStateEvent h 1 5 2, Event.sleep 1, getStateEvent h 1 7]⟩) := by
    simp [switcherSetMode, fresh, hopen, forceSwitch, setMuxState,
      IOConnectCallScalarMethod, setStateEvent, getStateEvent, muxForceSwitch,
      setDynamicSwitchingEnabled, setFeatureInfo, setSwitchPolicy, sleep,
      isUsingIntegrated, getMuxState, muxGpuSelect, muxSwitchPolicy,
      muxGraphicsCard, muxDisableFeature, shl1, intToU64, muxFeature.val,
      u64, hread]
    show ¬ v % 2 ^ 64 = 0
    rw [Nat.mod_eq_of_lt hlt]
    exact hv
  refine ⟨hrun, ?_⟩
  rw [hrun]
  simp [forceSwitchCount, isForceSwitch, setStateEvent, getStateEvent,
    kSetMuxState, kGetMuxState]

/-- C1 witness: handle 1 on the stateful mux `togglingChannel`, whose read
returns 1 before any force-switch. -/
theorem forceIntegrated_no_switch_when_readback_nonzero_witness :
    switcherSetMode togglingChannel 0 .modeForceIntegrated (fresh 1)
        = (1, ⟨1, [setStateEvent 1 1 4 0, setStateEvent 1 1 0 1,
            setStateEvent 1 1 5 2, Event.sleep 1, getStateEvent 1 1 7]⟩)
      ∧ forceSwitchCount
          (switcherSetMode togglingChannel 0 .modeForceIntegrated (fresh 1)).2.trace
        = 0 :=
  forceIntegrated_no_switch_when_readback_nonzero togglingChannel 0 1 1
    (by decide) (by decide) (by decide) rfl

/-- C2 (as stated, refuted): on handle 1 and the channel on which every call
succeeds and every read returns 0, `switcherSetMode(modeForceDiscrete)` stops
after the read and records no force-switch call. -/
theorem forceDiscrete_readback_zero_no_switch :
    switcherSetMode (constChannel 0) 0 .modeForceDiscrete (fresh 1)
        = (1, ⟨1, [setStateEvent 1 1 4 0, setStateEvent 1 1 0 1,
            setStateEvent 1 1 5 2, Event.sleep 1, getStateEvent 1 1 7]⟩)
      ∧ forceSwitchCount
          (switcherSetMode (constChannel 0) 0 .modeForceDiscrete (fresh 1)).2.trace
        = 0 := by
  constructor <;> rfl

/-- C2 (amended): on an open handle, when the active-card read (get-state key
7), issued after the three writes and the settle delay, succeeds with a
non-zero 64-bit value, which is what `isUsingIntegrated` takes as integrated,
`switcherSetMode(modeForceDiscrete)` returns 1 and records set-state
`[1, 4, 0]`, set-state `[1, 0, 1]`, set-state `[1, 5, 2]`, the settle delay,
get-state `[1, 7]` and then the force-switch set-state `[1, 2, 0]`: exactly
one force-switch call, and it is the last event.  Only the reply to that one
read is assumed; the channel is free everywhere else, also after the
force-switch. -/
theorem forceDiscrete_switches_once_when_readback_nonzero (chan : Channel)
    (uninit h v : Nat) (hopen : h ≠ IO_OBJECT_NULL) (hv : v ≠ 0)
    (hlt : v < 2 ^ 64)
    (hread : chan [setStateEvent h 1 4 0, setStateEvent h 1 0 1,
        setStateEvent h 1 5 2, Event.sleep 1] ⟨h, kGetMuxState, [1, 7], 1⟩
      = ⟨KERN_SUCCESS, some v⟩) :
    switcherSetMode chan uninit .modeForceDiscrete (fresh h)
        = (1, ⟨h, [setStateEvent h 1 4 0, setStateEvent h 1 0 1,
            setStateEvent h 1 5 2, Event.sleep 1, getStateEvent h 1 7,
            setStateEvent h 1 2 0]⟩)
      ∧ forceSwitchCount
          (switcherSetMode chan uninit .modeForceDiscrete (fresh h)).2.trace
        = 1
      ∧ (switcherSetMode chan uninit .modeForceDiscrete (fresh h)).2.trace.getLast?
        = some (setStateEvent h 1 2 0) := by
  simp only [setStateEvent] at hread
  have hrun : switcherSetMode chan uninit .modeForceDiscrete (fresh h)
      = (1, ⟨h, [setStateEvent h 1 4 0, setStateEvent h 1 0 1,
          setStateEvent h 1 5 2, Event.sleep 1, getStateEvent h 1 7,
          setStateEvent h 1 2 0]⟩) := by
    simp [switcherSetMode, fresh, hopen, forceSwitch, setMuxState,
      IOConnectCallScalarMethod, setStateEvent, getStateEvent, muxForceSwitch,
      setDynamicSwitchingEnabled, setFeatureInfo, setSwitchPolicy, sleep,
      isUsingIntegrated, getMuxState, muxGpuSelect, muxSwitchPolicy,
      muxGraphicsCard, muxDisableFeature, shl1, intToU64, muxFeature.val,
      u64, hread]
    show ¬ v % 2 ^ 64 = 0
    rw [Nat.mod_eq_of_lt hlt]
    exact hv
  refine ⟨hrun, ?_, ?_⟩
  · rw [hrun]
    simp [forceSwitchCount, isForceSwitch, setStateEvent, getStateEvent,
      kSetMuxState, kGetMuxState]
  · rw [hrun]
    simp

/-- C2 witness: handle 1 on the stateful mux `togglingChannel`, whose read
returns 1 before the force-switch and would return 0 after it. -/
theorem forceDiscrete_switches_once_when_readback_nonzero_witness :
    switcherSetMode togglingChannel 0 .modeForceDiscrete (fresh 1)
        = (1, ⟨1, [setStateEvent 1 1 4 0, setStateEvent 1 1 0 1,
            setStateEvent 1 1 5 2, Event.sleep 1, getStateEvent 1 1 7,
            setStateEvent 1 1 2 0]⟩)
      ∧ forceSwitchCount
          (switcherSetMode togglingChannel 0 .modeForceDiscrete (fresh 1)).2.trace
        = 1
      ∧ (switcherSetMode togglingChannel 0 .modeForceDiscrete (fresh 1)).2.trace.getLast?
        = some (setStateEvent 1 1 2 0) :=
  forceDiscrete_switches_once_when_readback_nonzero togglingChannel 0 1 1
    (by decide) (by decide) (by decide) rfl

/-- C3 (as stated, refuted): on handle 1 and a channel that fails the first
call, set-state `[1, 4, 0]`, `switcherSetMode(modeForceIntegrated)` returns 1
and goes on to record the two other writes, the settle delay and the read. -/
theorem forceIntegrated_first_call_fails_goes_on :
    (failFirstChannel [] ⟨1, kSetMuxState, [1, 4, 0], 0⟩).kr ≠ KERN_SUCCESS
      ∧ switcherSetMode failFirstChannel 0 .modeForceIntegrated (fresh 1)
        = (1, ⟨1, [setStateEvent 1 1 4 0, setStateEvent 1 1 0 1,
            setStateEvent 1 1 5 2, Event.sleep 1, getStateEvent 1 1 7]⟩) := by
  constructor
  · decide
  · rfl

/-- C3 (amended): on an open handle, when the first call, set-state
`[1, 4, 0]`, fails, `setMuxState` returns 0 for it but
`switcherSetMode(modeForceIntegrated)` does not report it: it returns 1, and
the later steps are issued all the same, set-state
`[1, 0, 1]`, set-state `[1, 5, 2]`, the settle delay and get-state `[1, 7]`,
followed by nothing or by the force-switch set-state `[1, 2, 0]`. -/
theorem forceIntegrated_ignores_first_failure (chan : Channel)
    (uninit h : Nat) (hopen : h ≠ IO_OBJECT_NULL)
    (hfail : (chan [] ⟨h, kSetMuxState, [1, 4, 0], 0⟩).kr ≠ KERN_SUCCESS) :
    (setMuxState chan h muxGpuSelect 0 (fresh h)).1 = 0
      ∧ (switcherSetMode chan uninit .modeForceIntegrated (fresh h)).1 = 1
      ∧ (switcherSetMode chan uninit .modeForceIntegrated (fresh h)).2.trace.take 5
        = [setStateEvent h 1 4 0, setStateEvent h 1 0 1, setStateEvent h 1 5 2,
            Event.sleep 1, getStateEvent h 1 7]
      ∧ ((switcherSetMode chan uninit .modeForceIntegrated (fresh h)).2.trace.drop 5
          = []
        ∨ (switcherSetMode chan uninit .modeForceIntegrated (fresh h)).2.trace.drop 5
          = [setStateEvent h 1 2 0]) := by
  refine ⟨?_, ?_⟩
  · have hfail2 : (chan [] ⟨h, kSetMuxState, [1, u64 muxGpuSelect, u64 0], 0⟩).kr
        ≠ KERN_SUCCESS := hfail
    simp [setMuxState, IOConnectCallScalarMethod, fresh, hfail2]
  simp only [switcherSetMode, fresh, hopen, if_false]
  split <;>
    simp [forceSwitch, setMuxState,
      IOConnectCallScalarMethod, setStateEvent, getStateEvent, muxForceSwitch,
      setDynamicSwitchingEnabled, setFeatureInfo, setSwitchPolicy, sleep,
      isUsingIntegrated, getMuxState, muxGpuSelect, muxSwitchPolicy,
      muxGraphicsCard, muxDisableFeature, shl1, intToU64, muxFeature.val,
      u64, hopen]

/-- C3 witness: handle 1 on the channel that fails the first call. -/
theorem forceIntegrated_ignores_first_failure_witness :
    (setMuxState failFirstChannel 1 muxGpuSelect 0 (fresh 1)).1 = 0
      ∧ (switcherSetMode failFirstChannel 0 .modeForceIntegrated (fresh 1)).1 = 1
      ∧ (switcherSetMode failFirstChannel 0 .modeForceIntegrated (fresh 1)).2.trace.take 5
        = [setStateEvent 1 1 4 0, setStateEvent 1 1 0 1, setStateEvent 1 1 5 2,
            Event.sleep 1, getStateEvent 1 1 7]
      ∧ ((switcherSetMode failFirstChannel 0 .modeForceIntegrated (fresh 1)).2.trace.drop 5
          = []
        ∨ (switcherSetMode failFirstChannel 0 .modeForceIntegrated (fresh 1)).2.trace.drop 5
          = [setStateEvent 1 1 2 0]) :=
  forceIntegrated_ignores_first_failure failFirstChannel 0 1 (by decide)
    (by decide)

/-- C5: on an open handle and whatever the channel answers (so in particular
when every call succeeds), `switcherSetMode(modeDynamicSwitching)` returns 1
and records exactly three events, all set-state calls, in this order:
`[1, 1, 1]`, `[1, 5, 0]`, `[1, 4, 1]`; no get-state call, no settle delay and
no force-switch. -/
theorem dynamicSwitching_three_writes (chan : Channel) (uninit h : Nat)
    (hopen : h ≠ IO_OBJECT_NULL) :
    switcherSetMode chan uninit .modeDynamicSwitching (fresh h)
        = (1, ⟨h, [setStateEvent h 1 1 1, setStateEvent h 1 5 0,
            setStateEvent h 1 4 1]⟩)
      ∧ forceSwitchCount
          (switcherSetMode chan uninit .modeDynamicSwitching (fresh h)).2.trace
        = 0 := by
  have hrun : switcherSetMode chan uninit .modeDynamicSwitching (fresh h)
      = (1, ⟨h, [setStateEvent h 1 1 1, setStateEvent h 1 5 0,
          setStateEvent h 1 4 1]⟩) := by
    simp [switcherSetMode, fresh, hopen, setMuxState,
      IOConnectCallScalarMethod, setStateEvent,
      setDynamicSwitchingEnabled, setFeatureInfo, setSwitchPolicy,
      muxGpuSelect, muxSwitchPolicy, muxEnableFeature, shl1, intToU64,
      muxFeature.val, u64]
  refine ⟨hrun, ?_⟩
  rw [hrun]
  simp [forceSwitchCount, isForceSwitch, setStateEvent, kSetMuxState]

/-- C5 witness: handle 1 on a channel that always succeeds. -/
theorem dynamicSwitching_three_writes_witness :
    switcherSetMode (constChannel 0) 0 .modeDynamicSwitching (fresh 1)
        = (1, ⟨1, [setStateEvent 1 1 1 1, setStateEvent 1 1 5 0,
            setStateEvent 1 1 4 1]⟩)
      ∧ forceSwitchCount
          (switcherSetMode (constChannel 0) 0 .modeDynamicSwitching (fresh 1)).2.trace
        = 0 :=
  dynamicSwitching_three_writes (constChannel 0) 0 1 (by decide)

/-- The `uint64_t` the helpers pass for `1<<feature` is `2 ^ feature`, for
every enumerator. -/
theorem intToU64_shl1 (f : muxFeature) : intToU64 (shl1 f) = 2 ^ f.val := by
  cases f <;> rfl

/-- C6: for every handle, every enumerator of `muxFeature` (the twelve feature
bits among them) and every `BOOL` value, `setFeatureInfo` records exactly one
event, the set-state call with the three 64-bit inputs
`[1, (1 if enabled else 0), 2 ^ b]` and no output, and returns 1 exactly when
that call succeeds, 0 otherwise. -/
theorem setFeatureInfo_single_call (chan : Channel) (h : Nat) (f : muxFeature)
    (enabled : Int) (w : World) :
    2 ^ f.val < 2 ^ 64
      ∧ (setFeatureInfo chan h f enabled w).2
        = ⟨w.switcherConnect, w.trace
            ++ [setStateEvent h 1 (if enabled ≠ 0 then 1 else 0) (2 ^ f.val)]⟩
      ∧ ((setFeatureInfo chan h f enabled w).1 = 1
        ↔ (chan w.trace ⟨h, kSetMuxState,
            [1, if enabled ≠ 0 then 1 else 0, 2 ^ f.val], 0⟩).kr = KERN_SUCCESS)
      ∧ ((setFeatureInfo chan h f enabled w).1 = 0
        ↔ (chan w.trace ⟨h, kSetMuxState,
            [1, if enabled ≠ 0 then 1 else 0, 2 ^ f.val], 0⟩).kr ≠ KERN_SUCCESS) := by
  have hlt : 2 ^ f.val < 2 ^ 64 := by cases f <;> decide
  have hu : u64 (2 ^ f.val) = 2 ^ f.val := Nat.mod_eq_of_lt hlt
  have hk : u64 (if enabled ≠ 0 then muxEnableFeature else muxDisableFeature)
      = if enabled ≠ 0 then 1 else 0 := by
    by_cases he : enabled = 0 <;> simp [he, muxEnableFeature, muxDisableFeature, u64]
  refine ⟨hlt, ?_, ?_, ?_⟩
  · simp only [setFeatureInfo, setMuxState, IOConnectCallScalarMethod,
      intToU64_shl1, hu, hk, setStateEvent]
  · simp only [setFeatureInfo, setMuxState, IOConnectCallScalarMethod,
      intToU64_shl1, hu, hk]
    split <;> simp_all
  · simp only [setFeatureInfo, setMuxState, IOConnectCallScalarMethod,
      intToU64_shl1, hu, hk]
    split <;> simp_all

/-- C7 (as stated, refuted): on handle 1 and a channel on which every call
succeeds, `setMuxState(handle, muxSwitchPolicy, 3)` is not rejected: it returns
1 and the trace holds the set-state call `[1, 5, 3]`. -/
theorem setMuxState_policy_three_is_sent :
    setMuxState (constChannel 0) 1 muxSwitchPolicy 3 (fresh 1)
      = (1, ⟨1, [setStateEvent 1 1 5 3]⟩) := by
  rfl

/-- C7 (amended): `setMuxState` validates nothing, for any key and any
argument: for every handle, every 64-bit `state` and `arg` it records exactly
one event, the set-state call `[1, state, arg]`, and returns 1 exactly when
the channel answers that call with success, 0 otherwise.  In particular
`setMuxState(handle, muxSwitchPolicy, 3)` records set-state `[1, 5, 3]`.  The
reserved value is never sent by the program's own policy setter:
`setSwitchPolicy` records set-state `[1, 5, 0]` or set-state `[1, 5, 2]`. -/
theorem setMuxState_policy_unchecked (chan : Channel) (h state arg : Nat)
    (w : World) (dynamic : Int) (hs : state < 2 ^ 64) (ha : arg < 2 ^ 64) :
    (setMuxState chan h state arg w).2
        = ⟨w.switcherConnect, w.trace ++ [setStateEvent h 1 state arg]⟩
      ∧ ((setMuxState chan h state arg w).1 = 1
        ↔ (chan w.trace ⟨h, kSetMuxState, [1, state, arg], 0⟩).kr = KERN_SUCCESS)
      ∧ ((setMuxState chan h state arg w).1 = 0
        ↔ (chan w.trace ⟨h, kSetMuxState, [1, state, arg], 0⟩).kr ≠ KERN_SUCCESS)
      ∧ (setMuxState chan h muxSwitchPolicy 3 w).2
        = ⟨w.switcherConnect, w.trace ++ [setStateEvent h 1 5 3]⟩
      ∧ ((setMuxState chan h muxSwitchPolicy 3 w).1 = 1
        ↔ (chan w.trace ⟨h, kSetMuxState, [1, 5, 3], 0⟩).kr = KERN_SUCCESS)
      ∧ ((setMuxState chan h muxSwitchPolicy 3 w).1 = 0
        ↔ (chan w.trace ⟨h, kSetMuxState, [1, 5, 3], 0⟩).kr ≠ KERN_SUCCESS)
      ∧ (setSwitchPolicy chan h dynamic w
          = ⟨w.switcherConnect, w.trace ++ [setStateEvent h 1 5 0]⟩
        ∨ setSwitchPolicy chan h dynamic w
          = ⟨w.switcherConnect, w.trace ++ [setStateEvent h 1 5 2]⟩) := by
  have hus : u64 state = state := Nat.mod_eq_of_lt hs
  have hua : u64 arg = arg := Nat.mod_eq_of_lt ha
  have h5 : u64 muxSwitchPolicy = 5 := rfl
  have h3 : u64 3 = 3 := rfl
  have h2 : u64 2 = 2 := rfl
  have h0 : u64 0 = 0 := rfl
  refine ⟨?_, ?_, ?_, ?_, ?_, ?_, ?_⟩
  · simp only [setMuxState, IOConnectCallScalarMethod, hus, hua, setStateEvent]
  · simp only [setMuxState, IOConnectCallScalarMethod, hus, hua]
    split <;> simp_all
  · simp only [setMuxState, IOConnectCallScalarMethod, hus, hua]
    split <;> simp_all
  · simp only [setMuxState, IOConnectCallScalarMethod, h5, h3, setStateEvent]
  · simp only [setMuxState, IOConnectCallScalarMethod, h5, h3]
    split <;> simp_all
  · simp only [setMuxState, IOConnectCallScalarMethod, h5, h3]
    split <;> simp_all
  · by_cases hd : dynamic = 0
    · right
      simp only [setSwitchPolicy, setMuxState, IOConnectCallScalarMethod, hd,
        ne_eq, not_true_eq_false, if_false, h5, h2, setStateEvent]
    · left
      simp only [setSwitchPolicy, setMuxState, IOConnectCallScalarMethod, hd,
        ne_eq, not_false_eq_true, if_true, h5, h0, setStateEvent]

/-- C7 witness: handle 1, key `muxSwitchPolicy` and the unsupported value 1, on
the channel that fails the first call. -/
theorem setMuxState_policy_unchecked_witness :
    (setMuxState failFirstChannel 1 muxSwitchPolicy 1 (fresh 1)).2
        = ⟨(fresh 1).switcherConnect, (fresh 1).trace ++ [setStateEvent 1 1 muxSwitchPolicy 1]⟩
      ∧ ((setMuxState failFirstChannel 1 muxSwitchPolicy 1 (fresh 1)).1 = 1
        ↔ (failFirstChannel (fresh 1).trace ⟨1, kSetMuxState, [1, muxSwitchPolicy, 1], 0⟩).kr = KERN_SUCCESS)
      ∧ ((setMuxState failFirstChannel 1 muxSwitchPolicy 1 (fresh 1)).1 = 0
        ↔ (failFirstChannel (fresh 1).trace ⟨1, kSetMuxState, [1, muxSwitchPolicy, 1], 0⟩).kr ≠ KERN_SUCCESS)
      ∧ (setMuxState failFirstChannel 1 muxSwitchPolicy 3 (fresh 1)).2
        = ⟨(fresh 1).switcherConnect, (fresh 1).trace ++ [setStateEvent 1 1 5 3]⟩
      ∧ ((setMuxState failFirstChannel 1 muxSwitchPolicy 3 (fresh 1)).1 = 1
        ↔ (failFirstChannel (fresh 1).trace ⟨1, kSetMuxState, [1, 5, 3], 0⟩).kr = KERN_SUCCESS)
      ∧ ((setMuxState failFirstChannel 1 muxSwitchPolicy 3 (fresh 1)).1 = 0
        ↔ (failFirstChannel (fresh 1).trace ⟨1, kSetMuxState, [1, 5, 3], 0⟩).kr ≠ KERN_SUCCESS)
      ∧ (setSwitchPolicy failFirstChannel 1 0 (fresh 1)
          = ⟨(fresh 1).switcherConnect, (fresh 1).trace ++ [setStateEvent 1 1 5 0]⟩
        ∨ setSwitchPolicy failFirstChannel 1 0 (fresh 1)
          = ⟨(fresh 1).switcherConnect, (fresh 1).trace ++ [setStateEvent 1 1 5 2]⟩) :=
  setMuxState_policy_unchecked failFirstChannel 1 muxSwitchPolicy 1 (fresh 1) 0
    (by decide) (by decide)

/-- Converting a value below `2 ^ 31` to `int` keeps it. -/
theorem u64ToInt_of_lt (n : Nat) (h : n < 2 ^ 31) : u64ToInt n = (n : Int) := by
  have h32 : n % 2 ^ 32 = n := Nat.mod_eq_of_lt (by omega)
  simp only [u64ToInt, h32]
  rw [if_pos h]

/-- C8 (as stated, refuted): on the null handle and a channel that refuses
every call made on it, `setMuxState` reports failure, yet the call was
attempted: the trace holds the set-state call on handle 0. -/
theorem setMuxState_null_handle_is_attempted :
    setMuxState nullRejectingChannel IO_OBJECT_NULL muxGpuSelect 0
        (fresh IO_OBJECT_NULL)
      = (0, ⟨IO_OBJECT_NULL, [setStateEvent IO_OBJECT_NULL 1 4 0]⟩) := by
  rfl

/-- C8 (amended): when `switcherConnect` is `IO_OBJECT_NULL`, the three
functions that test it, `switcherSetMode` (every mode), `isUsingIntegrated` and
`isUsingDynamicSwitching`, return 0 and record nothing.  The four helpers that
take the handle as an argument do not test it: `getMuxState`, `setMuxState`,
`setFeatureInfo` and `getFeatureInfo` each record their one call on the null
handle and leave the verdict to the channel: `getMuxState`, `setMuxState` and
`setFeatureInfo` return 1 exactly when the channel answers that call with
success and 0 otherwise, `getMuxState` hands back the scalar the channel
stored (the old content of `*output` if it stored none), and `getFeatureInfo`
returns 0 when the channel fails the call and the feature bit of the stored
mask when it succeeds. -/
theorem null_handle_guarded_entry_points (chan : Channel) (uninit : Nat)
    (mode : SwitcherMode) (w : World)
    (hnull : w.switcherConnect = IO_OBJECT_NULL)
    (key arg output : Nat) (f : muxFeature) (enabled : Int) :
    switcherSetMode chan uninit mode w = (0, w)
      ∧ isUsingIntegrated chan uninit w = (0, w)
      ∧ isUsingDynamicSwitching chan uninit w = (0, w)
      ∧ (getMuxState chan IO_OBJECT_NULL key output w).2.trace
        = w.trace ++ [getStateEvent IO_OBJECT_NULL 1 (u64 key)]
      ∧ ((getMuxState chan IO_OBJECT_NULL key output w).1.1 = 1
        ↔ (chan w.trace
            ⟨IO_OBJECT_NULL, kGetMuxState, [1, u64 key], 1⟩).kr = KERN_SUCCESS)
      ∧ ((getMuxState chan IO_OBJECT_NULL key output w).1.1 = 0
        ↔ (chan w.trace
            ⟨IO_OBJECT_NULL, kGetMuxState, [1, u64 key], 1⟩).kr ≠ KERN_SUCCESS)
      ∧ (getMuxState chan IO_OBJECT_NULL key output w).1.2
        = (((chan w.trace
            ⟨IO_OBJECT_NULL, kGetMuxState, [1, u64 key], 1⟩).out).map u64).getD output
      ∧ (setMuxState chan IO_OBJECT_NULL key arg w).2.trace
        = w.trace ++ [setStateEvent IO_OBJECT_NULL 1 (u64 key) (u64 arg)]
      ∧ ((setMuxState chan IO_OBJECT_NULL key arg w).1 = 1
        ↔ (chan w.trace
            ⟨IO_OBJECT_NULL, kSetMuxState, [1, u64 key, u64 arg], 0⟩).kr
          = KERN_SUCCESS)
      ∧ ((setMuxState chan IO_OBJECT_NULL key arg w).1 = 0
        ↔ (chan w.trace
            ⟨IO_OBJECT_NULL, kSetMuxState, [1, u64 key, u64 arg], 0⟩).kr
          ≠ KERN_SUCCESS)
      ∧ (setFeatureInfo chan IO_OBJECT_NULL f enabled w).2.trace
        = w.trace ++ [setStateEvent IO_OBJECT_NULL 1
            (if enabled ≠ 0 then 1 else 0) (2 ^ f.val)]
      ∧ ((setFeatureInfo chan IO_OBJECT_NULL f enabled w).1 = 1
        ↔ (chan w.trace ⟨IO_OBJECT_NULL, kSetMuxState,
            [1, if enabled ≠ 0 then 1 else 0, 2 ^ f.val], 0⟩).kr
          = KERN_SUCCESS)
      ∧ ((setFeatureInfo chan IO_OBJECT_NULL f enabled w).1 = 0
        ↔ (chan w.trace ⟨IO_OBJECT_NULL, kSetMuxState,
            [1, if enabled ≠ 0 then 1 else 0, 2 ^ f.val], 0⟩).kr
          ≠ KERN_SUCCESS)
      ∧ (getFeatureInfo chan IO_OBJECT_NULL f w).2.trace
        = w.trace ++ [getStateEvent IO_OBJECT_NULL 1 0]
      ∧ (getFeatureInfo chan IO_OBJECT_NULL f w).1
        = (if (chan w.trace
              ⟨IO_OBJECT_NULL, kGetMuxState, [1, 0], 1⟩).kr = KERN_SUCCESS
          then ((2 ^ f.val &&& (((chan w.trace
              ⟨IO_OBJECT_NULL, kGetMuxState, [1, 0], 1⟩).out).map u64).getD 0 : Nat) : Int)
          else 0) := by
  have hlt : 2 ^ f.val < 2 ^ 64 := by cases f <;> decide
  have hu : u64 (2 ^ f.val) = 2 ^ f.val := Nat.mod_eq_of_lt hlt
  have hk : u64 (if enabled ≠ 0 then muxEnableFeature else muxDisableFeature)
      = if enabled ≠ 0 then 1 else 0 := by
    by_cases he : enabled = 0 <;> simp [he, muxEnableFeature, muxDisableFeature, u64]
  have h0 : u64 muxFeatureInfo = 0 := rfl
  have h31 : 2 ^ f.val < 2 ^ 31 := by cases f <;> decide
  refine ⟨?_, ?_, ?_, ?_, ?_, ?_, ?_, ?_, ?_, ?_, ?_, ?_, ?_, ?_, ?_⟩
  · simp [switcherSetMode, hnull]
  · simp [isUsingIntegrated, hnull]
  · simp [isUsingDynamicSwitching, hnull]
  · simp only [getMuxState, IOConnectCallScalarMethod, getStateEvent]
  · simp only [getMuxState, IOConnectCallScalarMethod]
    split <;> simp_all
  · simp only [getMuxState, IOConnectCallScalarMethod]
    split <;> simp_all
  · simp only [getMuxState, IOConnectCallScalarMethod]
    cases (chan w.trace ⟨IO_OBJECT_NULL, kGetMuxState, [1, u64 key], 1⟩).out <;> rfl
  · simp only [setMuxState, IOConnectCallScalarMethod, setStateEvent]
  · simp only [setMuxState, IOConnectCallScalarMethod]
    split <;> simp_all
  · simp only [setMuxState, IOConnectCallScalarMethod]
    split <;> simp_all
  · simp only [setFeatureInfo, setMuxState, IOConnectCallScalarMethod,
      intToU64_shl1, hu, hk, setStateEvent]
  · simp only [setFeatureInfo, setMuxState, IOConnectCallScalarMethod,
      intToU64_shl1, hu, hk]
    split <;> simp_all
  · simp only [setFeatureInfo, setMuxState, IOConnectCallScalarMethod,
      intToU64_shl1, hu, hk]
    split <;> simp_all
  · simp only [getFeatureInfo, getMuxState, IOConnectCallScalarMethod, h0,
      getStateEvent]
    split <;> rfl
  · simp only [getFeatureInfo, getMuxState, IOConnectCallScalarMethod, h0,
      intToU64_shl1]
    by_cases hkr : (chan w.trace
        ⟨IO_OBJECT_NULL, kGetMuxState, [1, 0], 1⟩).kr = KERN_SUCCESS
    · have hone : ((1 : Int) = 0) = False := by decide
      simp only [hkr, if_true, hone, if_false]
      rw [u64ToInt_of_lt _ (lt_of_le_of_lt Nat.and_le_left h31)]
      cases (chan w.trace ⟨IO_OBJECT_NULL, kGetMuxState, [1, 0], 1⟩).out <;> rfl
    · simp only [hkr, if_false, if_true]

/-- C8 witness: the fresh world on the null handle, with a channel that
refuses every call made on it. -/
theorem null_handle_guarded_entry_points_witness :
    switcherSetMode nullRejectingChannel 0 .modeToggleGPU (fresh 0) = (0, (fresh 0))
      ∧ isUsingIntegrated nullRejectingChannel 0 (fresh 0) = (0, (fresh 0))
      ∧ isUsingDynamicSwitching nullRejectingChannel 0 (fresh 0) = (0, (fresh 0))
      ∧ (getMuxState nullRejectingChannel IO_OBJECT_NULL 7 0 (fresh 0)).2.trace
        = (fresh 0).trace ++ [getStateEvent IO_OBJECT_NULL 1 (u64 7)]
      ∧ ((getMuxState nullRejectingChannel IO_OBJECT_NULL 7 0 (fresh 0)).1.1 = 1
        ↔ (nullRejectingChannel (fresh 0).trace
            ⟨IO_OBJECT_NULL, kGetMuxState, [1, u64 7], 1⟩).kr = KERN_SUCCESS)
      ∧ ((getMuxState nullRejectingChannel IO_OBJECT_NULL 7 0 (fresh 0)).1.1 = 0
        ↔ (nullRejectingChannel (fresh 0).trace
            ⟨IO_OBJECT_NULL, kGetMuxState, [1, u64 7], 1⟩).kr ≠ KERN_SUCCESS)
      ∧ (getMuxState nullRejectingChannel IO_OBJECT_NULL 7 0 (fresh 0)).1.2
        = (((nullRejectingChannel (fresh 0).trace
            ⟨IO_OBJECT_NULL, kGetMuxState, [1, u64 7], 1⟩).out).map u64).getD 0
      ∧ (setMuxState nullRejectingChannel IO_OBJECT_NULL 7 0 (fresh 0)).2.trace
        = (fresh 0).trace ++ [setStateEvent IO_OBJECT_NULL 1 (u64 7) (u64 0)]
      ∧ ((setMuxState nullRejectingChannel IO_OBJECT_NULL 7 0 (fresh 0)).1 = 1
        ↔ (nullRejectingChannel (fresh 0).trace
            ⟨IO_OBJECT_NULL, kSetMuxState, [1, u64 7, u64 0], 0⟩).kr
          = KERN_SUCCESS)
      ∧ ((setMuxState nullRejectingChannel IO_OBJECT_NULL 7 0 (fresh 0)).1 = 0
        ↔ (nullRejectingChannel (fresh 0).trace
            ⟨IO_OBJECT_NULL, kSetMuxState, [1, u64 7, u64 0], 0⟩).kr
          ≠ KERN_SUCCESS)
      ∧ (setFeatureInfo nullRejectingChannel IO_OBJECT_NULL muxFeature.Policy (1 : Int) (fresh 0)).2.trace
        = (fresh 0).trace ++ [setStateEvent IO_OBJECT_NULL 1
            (if (1 : Int) ≠ 0 then 1 else 0) (2 ^ muxFeature.Policy.val)]
      ∧ ((setFeatureInfo nullRejectingChannel IO_OBJECT_NULL muxFeature.Policy (1 : Int) (fresh 0)).1 = 1
        ↔ (nullRejectingChannel (fresh 0).trace ⟨IO_OBJECT_NULL, kSetMuxState,
            [1, if (1 : Int) ≠ 0 then 1 else 0, 2 ^ muxFeature.Policy.val], 0⟩).kr
          = KERN_SUCCESS)
      ∧ ((setFeatureInfo nullRejectingChannel IO_OBJECT_NULL muxFeature.Policy (1 : Int) (fresh 0)).1 = 0
        ↔ (nullRejectingChannel (fresh 0).trace ⟨IO_OBJECT_NULL, kSetMuxState,
            [1, if (1 : Int) ≠ 0 then 1 else 0, 2 ^ muxFeature.Policy.val], 0⟩).kr
          ≠ KERN_SUCCESS)
      ∧ (getFeatureInfo nullRejectingChannel IO_OBJECT_NULL muxFeature.Policy (fresh 0)).2.trace
        = (fresh 0).trace ++ [getStateEvent IO_OBJECT_NULL 1 0]
      ∧ (getFeatureInfo nullRejectingChannel IO_OBJECT_NULL muxFeature.Policy (fresh 0)).1
        = (if (nullRejectingChannel (fresh 0).trace
              ⟨IO_OBJECT_NULL, kGetMuxState, [1, 0], 1⟩).kr = KERN_SUCCESS
          then ((2 ^ muxFeature.Policy.val &&& (((nullRejectingChannel (fresh 0).trace
              ⟨IO_OBJECT_NULL, kGetMuxState, [1, 0], 1⟩).out).map u64).getD 0 : Nat) : Int)
          else 0) :=
  null_handle_guarded_entry_points nullRejectingChannel 0 .modeToggleGPU
    (fresh 0) rfl 7 0 0 .Policy 1

/-- A single bit ANDed with a mask is that bit when the mask has it, else 0. -/
theorem two_pow_and_eq (b m : Nat) :
    2 ^ b &&& m = if m.testBit b then 2 ^ b else 0 := by
  apply Nat.eq_of_testBit_eq
  intro i
  rw [Nat.testBit_and, Nat.testBit_two_pow]
  by_cases hi : b = i
  · subst hi
    cases hm : m.testBit b <;> simp [Nat.testBit_two_pow]
  · cases hm : m.testBit b <;> simp [hi, Nat.testBit_two_pow]

/-- Bit 3 of a mask, as the shift-and-mask expression. -/
theorem testBit_three (m : Nat) :
    m.testBit 3 = decide ((m >>> 3) &&& 1 = 1) := by
  simp [Nat.testBit, Nat.and_comm]

/-- On the fake channel, a feature bit that was just enabled reads back set. -/
theorem fake_readback (m0 b : Nat) (hb : b < 64) (hist : List Event) (h : Nat) :
    2 ^ b &&& u64 (fakeMask m0 (hist ++ [setStateEvent h 1 1 (2 ^ b)])) = 2 ^ b := by
  have hstep : fakeMask m0 (hist ++ [setStateEvent h 1 1 (2 ^ b)])
      = (fakeMask m0 hist ||| 2 ^ b) % 2 ^ 64 := by
    simp [fakeMask, List.foldl_append, fakeMaskStep, setStateEvent]
  rw [hstep, two_pow_and_eq]
  have ht : (u64 ((fakeMask m0 hist ||| 2 ^ b) % 2 ^ 64)).testBit b = true := by
    unfold u64
    rw [Nat.mod_mod, Nat.testBit_mod_two_pow, Nat.testBit_or,
      Nat.testBit_two_pow]
    simp [hb]
  rw [ht]
  rfl

/-- C9: over the fake channel that keeps a 64-bit feature mask, for every
initial mask, every handle, every earlier history and every enumerator of
`muxFeature` (the twelve feature bits among them), `setFeatureInfo(h, b, 1)`
succeeds and the `getFeatureInfo(h, b)` that follows returns `2 ^ b`, which is
non-zero, that is true. -/
theorem setFeature_getFeature_roundtrip (m0 h : Nat) (f : muxFeature)
    (w : World) :
    (setFeatureInfo (fakeFeatureChannel m0) h f 1 w).1 = 1
      ∧ (getFeatureInfo (fakeFeatureChannel m0) h f
          (setFeatureInfo (fakeFeatureChannel m0) h f 1 w).2).1 = 2 ^ f.val
      ∧ (getFeatureInfo (fakeFeatureChannel m0) h f
          (setFeatureInfo (fakeFeatureChannel m0) h f 1 w).2).1 ≠ 0 := by
  have hb : f.val < 64 := by cases f <;> decide
  have hlt : 2 ^ f.val < 2 ^ 64 := by cases f <;> decide
  have hu : u64 (2 ^ f.val) = 2 ^ f.val := Nat.mod_eq_of_lt hlt
  have hset : setFeatureInfo (fakeFeatureChannel m0) h f 1 w
      = (1, ⟨w.switcherConnect, w.trace ++ [setStateEvent h 1 1 (2 ^ f.val)]⟩) := by
    have h1 : u64 muxEnableFeature = 1 := rfl
    simp [setFeatureInfo, setMuxState, IOConnectCallScalarMethod,
      intToU64_shl1, hu, h1, setStateEvent, fakeFeatureChannel, kSetMuxState,
      kGetMuxState]
  have hget : (getFeatureInfo (fakeFeatureChannel m0) h f
      ⟨w.switcherConnect, w.trace ++ [setStateEvent h 1 1 (2 ^ f.val)]⟩).1
      = 2 ^ f.val := by
    have h0 : u64 muxFeatureInfo = 0 := rfl
    have hk : (1 : Int) = 0 ↔ False := by decide
    simp only [getFeatureInfo, getMuxState, IOConnectCallScalarMethod, h0,
      fakeFeatureChannel, and_self, if_true, intToU64_shl1, hk, if_false,
      fake_readback m0 f.val hb w.trace h]
    rw [u64ToInt_of_lt _ (by cases f <;> decide)]
    norm_cast
  rw [hset]
  refine ⟨rfl, hget, ?_⟩
  rw [hget]
  positivity

/-- C10 (as stated, refuted): when the feature mask read back is 8, raw bit 3
set, `getFeatureInfo(handle, GPU_Powerpolling)` returns 8, that is true, not
the negation of the bit; when the mask is 0 it returns 0, that is false. -/
theorem getFeatureInfo_powerpolling_not_negated :
    (8 >>> 3) &&& 1 = 1
      ∧ (getFeatureInfo (constChannel 8) 1 .GPU_Powerpolling (fresh 1)).1 = 8
      ∧ (0 >>> 3) &&& 1 = 0
      ∧ (getFeatureInfo (constChannel 0) 1 .GPU_Powerpolling (fresh 1)).1 = 0 := by
  refine ⟨by decide, by rfl, by decide, by rfl⟩

/-- C10 (amended): for every 64-bit feature mask returned by a successful
get-state `[1, 0]` call, `getFeatureInfo(handle, GPU_Powerpolling)` returns raw
bit 3 of the mask as it is, not negated: it returns 8 when
`(mask >> 3) & 1 = 1` and 0 otherwise, so it is true exactly when
`(mask >> 3) & 1 = 1`. -/
theorem getFeatureInfo_powerpolling_raw_bit (chan : Channel) (h mask : Nat)
    (w : World) (hlt : mask < 2 ^ 64)
    (hread : chan w.trace ⟨h, kGetMuxState, [1, 0], 1⟩
      = ⟨KERN_SUCCESS, some mask⟩) :
    (getFeatureInfo chan h .GPU_Powerpolling w).1
        = (if (mask >>> 3) &&& 1 = 1 then 8 else 0)
      ∧ ((getFeatureInfo chan h .GPU_Powerpolling w).1 ≠ 0
        ↔ (mask >>> 3) &&& 1 = 1) := by
  have h0 : u64 muxFeatureInfo = 0 := rfl
  have hk : (1 : Int) = 0 ↔ False := by decide
  have hm : u64 mask = mask := Nat.mod_eq_of_lt hlt
  have h8 : intToU64 (shl1 muxFeature.GPU_Powerpolling) = 2 ^ 3 := rfl
  have hval : (getFeatureInfo chan h .GPU_Powerpolling w).1
      = (if (mask >>> 3) &&& 1 = 1 then 8 else 0) := by
    simp only [getFeatureInfo, getMuxState, IOConnectCallScalarMethod, h0,
      hread, if_true, hk, if_false, hm, h8, two_pow_and_eq, testBit_three]
    by_cases hbit : (mask >>> 3) &&& 1 = 1
    · simp only [hbit, decide_True, if_true]
      rfl
    · simp only [hbit, decide_False, if_false]
      rfl
  refine ⟨hval, ?_⟩
  rw [hval]
  by_cases hbit : (mask >>> 3) &&& 1 = 1 <;> simp [hbit]

/-- C10 witness: handle 1 and a channel whose reads all return the mask 8. -/
theorem getFeatureInfo_powerpolling_raw_bit_witness :
    (getFeatureInfo (constChannel 8) 1 .GPU_Powerpolling (fresh 1)).1
        = (if (8 >>> 3) &&& 1 = 1 then 8 else 0)
      ∧ ((getFeatureInfo (constChannel 8) 1 .GPU_Powerpolling (fresh 1)).1 ≠ 0
        ↔ (8 >>> 3) &&& 1 = 1) :=
  getFeatureInfo_powerpolling_raw_bit (constChannel 8) 1 8 (fresh 1)
    (by decide) rfl

/-- C11 (as stated, refuted): on handle 1, when the channel answers the read
successfully with 0, `isUsingIntegrated()` issues its one get-state call
`[1, 7]` and returns 0, that is false; when the answer is 1 it returns 1, that
is true. -/
theorem isUsingIntegrated_zero_is_false :
    isUsingIntegrated (constChannel 0) 0 (fresh 1)
        = (0, ⟨1, [getStateEvent 1 1 7]⟩)
      ∧ isUsingIntegrated (constChannel 1) 0 (fresh 1)
        = (1, ⟨1, [getStateEvent 1 1 7]⟩) := by
  constructor <;> rfl

/-- C11 (amended): on an open handle, when the channel answers the read
successfully with the 64-bit value `v`, `isUsingIntegrated()` records exactly
one event, the get-state call (`kGetMuxState`) with the two scalar inputs
`[1, 7]` and one expected output, and returns 1 (true) exactly when `v` is not
0, and 0 (false) exactly when `v = 0`. -/
theorem isUsingIntegrated_single_read_nonzero (chan : Channel)
    (uninit v : Nat) (w : World) (hopen : w.switcherConnect ≠ IO_OBJECT_NULL)
    (hlt : v < 2 ^ 64)
    (hread : chan w.trace ⟨w.switcherConnect, kGetMuxState, [1, 7], 1⟩
      = ⟨KERN_SUCCESS, some v⟩) :
    (isUsingIntegrated chan uninit w).2
        = ⟨w.switcherConnect, w.trace
            ++ [Event.call ⟨w.switcherConnect, kGetMuxState, [1, 7], 1⟩]⟩
      ∧ ((isUsingIntegrated chan uninit w).1 = 1 ↔ v ≠ 0)
      ∧ ((isUsingIntegrated chan uninit w).1 = 0 ↔ v = 0) := by
  have h7 : u64 muxGraphicsCard = 7 := rfl
  have hv : u64 v = v := Nat.mod_eq_of_lt hlt
  have hrun : isUsingIntegrated chan uninit w
      = (if v ≠ 0 then 1 else 0, ⟨w.switcherConnect, w.trace
          ++ [Event.call ⟨w.switcherConnect, kGetMuxState, [1, 7], 1⟩]⟩) := by
    simp only [isUsingIntegrated, hopen, if_false, getMuxState,
      IOConnectCallScalarMethod, h7, hread, hv]
  rw [hrun]
  refine ⟨rfl, ?_, ?_⟩
  · by_cases h0 : v = 0 <;> simp [h0]
  · by_cases h0 : v = 0 <;> simp [h0]

/-- C11 witness: handle 1 on the channel whose reads all return 8. -/
theorem isUsingIntegrated_single_read_nonzero_witness :
    (isUsingIntegrated (constChannel 8) 0 (fresh 1)).2
        = ⟨(fresh 1).switcherConnect, (fresh 1).trace
            ++ [Event.call ⟨(fresh 1).switcherConnect, kGetMuxState, [1, 7], 1⟩]⟩
      ∧ ((isUsingIntegrated (constChannel 8) 0 (fresh 1)).1 = 1 ↔ 8 ≠ 0)
      ∧ ((isUsingIntegrated (constChannel 8) 0 (fresh 1)).1 = 0 ↔ 8 = 0) :=
  isUsingIntegrated_single_read_nonzero (constChannel 8) 0 8 (fresh 1)
    (by decide) (by decide) rfl

end Switcher
